import Mathlib

/-!
Verification of the serialization layer of a Wagtail-based CMS backend
("pilot-backend"): the recursive StreamField block-value serializer in
`mysite/api.py`, the ad-hoc `page_by_slug` field walker, the navigation /
footer `link` properties, and the slug-filling `save` overrides.

Python values flowing through the serializers are modelled by the inductive
type `Value` below, a tagged union of exactly the runtime variants the code
dispatches on:
  * `vnone`, `vbool`, `vint`, `vfloat`, `vstr` - the basic scalars
    (Python `None`, `bool`, `int`, `float`, `str`; a float is carried as its
    literal text since the serializers only pass floats through unchanged);
  * `vrich s` - a `wagtail.rich_text.RichText` object whose `str(...)` form
    is `s`;
  * `vimage id title url width height` - a `wagtail.images.models.Image`
    with those attribute values (`url` standing for `file.url`);
  * `vdate iso` - a `datetime.date` or `datetime.datetime` whose
    `isoformat()` is `iso` (the serializers treat the two identically);
  * `vlist xs` - a plain Python `list` (the code treats `tuple` the same
    way in the block serializers, so tuples are conflated with lists);
  * `vlistv xs` - a `wagtail.blocks.list_block.ListValue` (NOT a `list`
    subclass, so `isinstance(value, (list, tuple))` is false for it);
  * `vstruct fs` - a `wagtail.blocks.StructValue`: a `dict` subclass with
    an `items()` method, fields in insertion order;
  * `vdict fs` - a plain Python `dict` (also has `items()`), used for the
    serializer output;
  * `vstream bs` - a `wagtail.blocks.stream_block.StreamValue`: a sequence
    of bound blocks, each with `block_type : String`, `value : Value` and
    an optional `id` (the code emits `str(block.id)` when the attribute is
    present and `None` otherwise, so the id is carried as `Option String`);
  * `vother r` - any other Python object, carried with its `str(...)`
    form `r` (this is what the catch-all `str(value)` branch returns).
-/

inductive Value where
  | vnone : Value
  | vbool (b : Bool) : Value
  | vint (n : Int) : Value
  | vfloat (lit : String) : Value
  | vstr (s : String) : Value
  | vrich (s : String) : Value
  | vimage (idv : Int) (title url : String) (width height : Int) : Value
  | vdate (iso : String) : Value
  | vlist (xs : List Value) : Value
  | vlistv (xs : List Value) : Value
  | vstruct (fs : List (String × Value)) : Value
  | vdict (fs : List (String × Value)) : Value
  | vstream (bs : List (String × Value × Option String)) : Value
  | vother (srepr : String) : Value

/-- A bound block of a StreamValue: `(block.block_type, block.value, block.id)`,
with `none` for a block without an `id` attribute. -/
abbrev SBlock := String × Value × Option String

open Value

/-- Representation of the `id` entry emitted by
`StreamFieldSerializer.to_representation`:
`str(block.id) if hasattr(block, 'id') else None`. -/
def block_id_repr : Option String → Value
  | some s => vstr s
  | none => vnone

mutual

/-- Embedding of `StreamFieldSerializer._serialize_value` (mysite/api.py,
lines 83-134): dispatch in source order on None, basic scalars, ListValue,
objects with a callable `items()` (StructValue and plain dicts), StreamValue,
plain lists/tuples, RichText, Image, date/datetime, and finally the
catch-all `str(value)`. -/
def serialize_value : Value → Value
  | vnone => vnone
  | vbool b => vbool b
  | vint n => vint n
  | vfloat lit => vfloat lit
  | vstr s => vstr s
  | vlistv xs => vlist (serialize_value_list xs)
  | vstruct fs => vdict (serialize_struct_fields fs)
  | vdict fs => vdict (serialize_struct_fields fs)
  | vstream bs => vlist (to_repr_list bs)
  | vlist xs => vlist (serialize_value_list xs)
  | vrich s => vstr s
  | vimage i t u w h =>
      vdict [("id", vint i), ("title", vstr t), ("url", vstr u),
             ("width", vint w), ("height", vint h)]
  | vdate iso => vstr iso
  | vother r => vstr r

/-- Elementwise `_serialize_value` over a Python list (the list
comprehensions at lines 101 and 113 of mysite/api.py). -/
def serialize_value_list : List Value → List Value
  | [] => []
  | x :: xs => serialize_value x :: serialize_value_list xs

/-- Embedding of `StreamFieldSerializer._serialize_struct_block`
(mysite/api.py, lines 76-81): serialize each field value with
`_serialize_value`, keeping the keys. -/
def serialize_struct_fields : List (String × Value) → List (String × Value)
  | [] => []
  | (k, v) :: fs => (k, serialize_value v) :: serialize_struct_fields fs

/-- Embedding of `StreamFieldSerializer._serialize_block_value`
(mysite/api.py, lines 61-74): objects with `items` (StructValue, dict) go to
`_serialize_struct_block`, basic scalars are returned unchanged, plain
lists/tuples are mapped over, and everything else is handed to
`_serialize_value`. -/
def serialize_block_value : Value → Value
  | vstruct fs => vdict (serialize_struct_fields fs)
  | vdict fs => vdict (serialize_struct_fields fs)
  | vstr s => vstr s
  | vint n => vint n
  | vfloat lit => vfloat lit
  | vbool b => vbool b
  | vnone => vnone
  | vlist xs => vlist (serialize_block_list xs)
  | vlistv xs => serialize_value (vlistv xs)
  | vstream bs => serialize_value (vstream bs)
  | vrich s => serialize_value (vrich s)
  | vimage i t u w h => serialize_value (vimage i t u w h)
  | vdate iso => serialize_value (vdate iso)
  | vother r => serialize_value (vother r)

/-- Elementwise `_serialize_block_value` over a Python list (the list
comprehension at line 71 of mysite/api.py). -/
def serialize_block_list : List Value → List Value
  | [] => []
  | x :: xs => serialize_block_value x :: serialize_block_list xs

/-- Entry list built by `StreamFieldSerializer.to_representation`
(mysite/api.py, lines 50-59): one
`{'type': ..., 'value': ..., 'id': ...}` dict per bound block. -/
def to_repr_list : List SBlock → List Value
  | [] => []
  | (t, v, i) :: bs =>
      vdict [("type", vstr t), ("value", serialize_block_value v),
             ("id", block_id_repr i)] :: to_repr_list bs

end

/-- Embedding of `StreamFieldSerializer.to_representation` (mysite/api.py,
lines 50-59): the list of per-block dicts. -/
def to_representation (bs : List SBlock) : Value :=
  vlist (to_repr_list bs)

example :
    to_representation [("heading", vstr "Hi", some "b1")] =
      vlist [vdict [("type", vstr "heading"), ("value", vstr "Hi"),
                    ("id", vstr "b1")]] := by
  simp [to_representation, to_repr_list, serialize_block_value, block_id_repr]

example :
    serialize_value (vstruct [("img", vimage 7 "pic" "/m/p.png" 640 480),
                              ("when", vdate "2024-05-01")]) =
      vdict [("img", vdict [("id", vint 7), ("title", vstr "pic"),
                            ("url", vstr "/m/p.png"), ("width", vint 640),
                            ("height", vint 480)]),
             ("when", vstr "2024-05-01")] := by
  simp [serialize_value, serialize_struct_fields]

mutual

/-- Generic-JSON predicate on modelled Python values: true exactly on `None`,
`bool`, `int`, `float`, `str`, plain lists of JSON values and string-keyed
plain dicts of JSON values. -/
def isJSON : Value → Bool
  | vnone => true
  | vbool _ => true
  | vint _ => true
  | vfloat _ => true
  | vstr _ => true
  | vlist xs => isJSON_list xs
  | vdict fs => isJSON_fields fs
  | vrich _ => false
  | vimage _ _ _ _ _ => false
  | vdate _ => false
  | vlistv _ => false
  | vstruct _ => false
  | vstream _ => false
  | vother _ => false

/-- Every element of the list is generic JSON. -/
def isJSON_list : List Value → Bool
  | [] => true
  | x :: xs => isJSON x && isJSON_list xs

/-- Every field value of the (string-keyed) dict is generic JSON. -/
def isJSON_fields : List (String × Value) → Bool
  | [] => true
  | (_, v) :: fs => isJSON v && isJSON_fields fs

end

/-- Block ids serialize to generic JSON (a string or `None`). -/
theorem isJSON_block_id_repr (i : Option String) :
    isJSON (block_id_repr i) = true := by
  cases i <;> simp [block_id_repr, isJSON]

/-- Core invariant: `_serialize_value` always returns generic JSON (every
dispatch branch outputs a scalar, a string, a JSON dict, or a list/dict of
recursively serialized values). -/
theorem serialize_value_returns_json (v : Value) :
    isJSON (serialize_value v) = true := by
  apply serialize_value.induct
    (fun v => isJSON (serialize_value v) = true)
    (fun bs => isJSON_list (to_repr_list bs) = true)
    (fun v => isJSON (serialize_block_value v) = true)
    (fun xs => isJSON_list (serialize_block_list xs) = true)
    (fun fs => isJSON_fields (serialize_struct_fields fs) = true)
    (fun xs => isJSON_list (serialize_value_list xs) = true) <;>
  intros <;>
  simp_all [serialize_value, serialize_block_value, serialize_value_list,
    serialize_block_list, serialize_struct_fields, to_repr_list,
    isJSON, isJSON_list, isJSON_fields, isJSON_block_id_repr]

/-- Core invariant: `_serialize_block_value` always returns generic JSON. -/
theorem serialize_block_value_returns_json (v : Value) :
    isJSON (serialize_block_value v) = true := by
  apply serialize_block_value.induct
    (fun v => isJSON (serialize_value v) = true)
    (fun bs => isJSON_list (to_repr_list bs) = true)
    (fun v => isJSON (serialize_block_value v) = true)
    (fun xs => isJSON_list (serialize_block_list xs) = true)
    (fun fs => isJSON_fields (serialize_struct_fields fs) = true)
    (fun xs => isJSON_list (serialize_value_list xs) = true) <;>
  intros <;>
  simp_all [serialize_value, serialize_block_value, serialize_value_list,
    serialize_block_list, serialize_struct_fields, to_repr_list,
    isJSON, isJSON_list, isJSON_fields, isJSON_block_id_repr]

/-- Pointwise form of `serialize_value_list`: it is `List.map serialize_value`
(the list comprehension at lines 101 and 113 of mysite/api.py). -/
theorem serialize_value_list_eq_map (xs : List Value) :
    serialize_value_list xs = xs.map serialize_value := by
  induction xs with
  | nil => simp [serialize_value_list]
  | cons x xs ih => simp [serialize_value_list, ih]

/-- Pointwise form of `serialize_block_list`: it is
`List.map serialize_block_value`. -/
theorem serialize_block_list_eq_map (xs : List Value) :
    serialize_block_list xs = xs.map serialize_block_value := by
  induction xs with
  | nil => simp [serialize_block_list]
  | cons x xs ih => simp [serialize_block_list, ih]

/-- Pointwise form of `serialize_struct_fields`: keys are kept, values are
serialized with `_serialize_value`. -/
theorem serialize_struct_fields_eq_map (fs : List (String × Value)) :
    serialize_struct_fields fs = fs.map (fun kv => (kv.1, serialize_value kv.2)) := by
  induction fs with
  | nil => simp [serialize_struct_fields]
  | cons kv fs ih =>
      obtain ⟨k, v⟩ := kv
      simp [serialize_struct_fields, ih]

/-- Pointwise form of `to_repr_list`: one `{type, value, id}` dict per
bound block, in order. -/
theorem to_repr_list_eq_map (bs : List SBlock) :
    to_repr_list bs =
      bs.map (fun b =>
        vdict [("type", vstr b.1), ("value", serialize_block_value b.2.1),
               ("id", block_id_repr b.2.2)]) := by
  induction bs with
  | nil => simp [to_repr_list]
  | cons b bs ih =>
      obtain ⟨t, v, i⟩ := b
      simp [to_repr_list, ih]

/-- Each entry built by `to_representation` is generic JSON. -/
theorem to_repr_list_json (bs : List SBlock) :
    isJSON_list (to_repr_list bs) = true := by
  induction bs with
  | nil => simp [to_repr_list, isJSON_list]
  | cons b bs ih =>
      obtain ⟨t, v, i⟩ := b
      simp [to_repr_list, isJSON_list, isJSON, isJSON_fields,
        serialize_block_value_returns_json, isJSON_block_id_repr, ih]

mutual

/-- Built only from the known variants: struct values, list values
(framework ListValue or plain list), nested stream values, rich text, image
references, dates and the basic scalars (plain dicts and arbitrary foreign
objects excluded). -/
def known_value : Value → Bool
  | vnone => true
  | vbool _ => true
  | vint _ => true
  | vfloat _ => true
  | vstr _ => true
  | vrich _ => true
  | vimage _ _ _ _ _ => true
  | vdate _ => true
  | vlist xs => known_list xs
  | vlistv xs => known_list xs
  | vstruct fs => known_fields fs
  | vdict _ => false
  | vstream bs => known_blocks bs
  | vother _ => false

/-- Every element of the list is built from known variants. -/
def known_list : List Value → Bool
  | [] => true
  | x :: xs => known_value x && known_list xs

/-- Every field value of the struct is built from known variants. -/
def known_fields : List (String × Value) → Bool
  | [] => true
  | (_, v) :: fs => known_value v && known_fields fs

/-- Every block value of the stream is built from known variants. -/
def known_blocks : List SBlock → Bool
  | [] => true
  | (_, v, _) :: bs => known_value v && known_blocks bs

end

mutual

/-- True iff serializing this value with `_serialize_value` reaches the
fall-through `str(value)` branch (mysite/api.py, lines 133-134) somewhere:
the detector recurses exactly where `_serialize_value` recurses and fires
exactly on the values no earlier branch matches. -/
def fallback_value : Value → Bool
  | vnone => false
  | vbool _ => false
  | vint _ => false
  | vfloat _ => false
  | vstr _ => false
  | vlistv xs => fallback_value_list xs
  | vstruct fs => fallback_fields fs
  | vdict fs => fallback_fields fs
  | vstream bs => fallback_blocks bs
  | vlist xs => fallback_value_list xs
  | vrich _ => false
  | vimage _ _ _ _ _ => false
  | vdate _ => false
  | vother _ => true

/-- The fall-through branch fires for some element of the list. -/
def fallback_value_list : List Value → Bool
  | [] => false
  | x :: xs => fallback_value x || fallback_value_list xs

/-- The fall-through branch fires for some struct field value. -/
def fallback_fields : List (String × Value) → Bool
  | [] => false
  | (_, v) :: fs => fallback_value v || fallback_fields fs

/-- True iff serializing this value with `_serialize_block_value` reaches the
fall-through `str(value)` branch of `_serialize_value` somewhere. -/
def fallback_block_value : Value → Bool
  | vstruct fs => fallback_fields fs
  | vdict fs => fallback_fields fs
  | vstr _ => false
  | vint _ => false
  | vfloat _ => false
  | vbool _ => false
  | vnone => false
  | vlist xs => fallback_block_list xs
  | vlistv xs => fallback_value (vlistv xs)
  | vstream bs => fallback_value (vstream bs)
  | vrich s => fallback_value (vrich s)
  | vimage i t u w h => fallback_value (vimage i t u w h)
  | vdate iso => fallback_value (vdate iso)
  | vother r => fallback_value (vother r)

/-- The fall-through branch fires for some element of the list. -/
def fallback_block_list : List Value → Bool
  | [] => false
  | x :: xs => fallback_block_value x || fallback_block_list xs

/-- The fall-through branch fires for some block value of the stream. -/
def fallback_blocks : List SBlock → Bool
  | [] => false
  | (_, v, _) :: bs => fallback_block_value v || fallback_blocks bs

end

/-- On values built only from the known variants, `_serialize_value` never
reaches the fall-through `str(value)` branch. -/
theorem known_no_fallback_value (v : Value) :
    known_value v = true → fallback_value v = false := by
  apply fallback_value.induct
    (fun v => known_value v = true → fallback_value v = false)
    (fun bs => known_blocks bs = true → fallback_blocks bs = false)
    (fun v => known_value v = true → fallback_block_value v = false)
    (fun xs => known_list xs = true → fallback_block_list xs = false)
    (fun fs => known_fields fs = true → fallback_fields fs = false)
    (fun xs => known_list xs = true → fallback_value_list xs = false) <;>
  intros <;>
  simp_all [known_value, known_list, known_fields, known_blocks,
    fallback_value, fallback_value_list, fallback_fields,
    fallback_block_value, fallback_block_list, fallback_blocks]

/-- On values built only from the known variants, `_serialize_block_value`
never reaches the fall-through `str(value)` branch. -/
theorem known_no_fallback_block_value (v : Value) :
    known_value v = true → fallback_block_value v = false := by
  apply fallback_block_value.induct
    (fun v => known_value v = true → fallback_value v = false)
    (fun bs => known_blocks bs = true → fallback_blocks bs = false)
    (fun v => known_value v = true → fallback_block_value v = false)
    (fun xs => known_list xs = true → fallback_block_list xs = false)
    (fun fs => known_fields fs = true → fallback_fields fs = false)
    (fun xs => known_list xs = true → fallback_value_list xs = false) <;>
  intros <;>
  simp_all [known_value, known_list, known_fields, known_blocks,
    fallback_value, fallback_value_list, fallback_fields,
    fallback_block_value, fallback_block_list, fallback_blocks]

/-- On streams whose block values are built only from the known variants,
`to_representation` never reaches the fall-through branch. -/
theorem known_no_fallback_blocks (bs : List SBlock) :
    known_blocks bs = true → fallback_blocks bs = false := by
  induction bs with
  | nil => simp [fallback_blocks]
  | cons b bs ih =>
      obtain ⟨t, v, i⟩ := b
      intro h
      simp [known_blocks] at h
      simp [fallback_blocks, known_no_fallback_block_value v h.1, ih h.2]

/-- Embedding of the runtime check
`isinstance(x, (str, int, bool, float, list, dict, type(None)))` at line 248
of mysite/api.py. A StructValue passes it because `StructValue` subclasses
`dict`; a framework ListValue fails it because it is not a `list` subclass. -/
def is_plain : Value → Bool
  | vstr _ => true
  | vint _ => true
  | vbool _ => true
  | vfloat _ => true
  | vlist _ => true
  | vdict _ => true
  | vstruct _ => true
  | vnone => true
  | vrich _ => false
  | vimage _ _ _ _ _ => false
  | vdate _ => false
  | vlistv _ => false
  | vstream _ => false
  | vother _ => false

/-- Abstraction of the Python builtin `str(...)` applied to a value the field
walker coerces (line 249 of mysite/api.py). The exact text produced for
container objects is not modelled; no claim depends on it, only on the result
being a string. -/
def pyStr : Value → String
  | vnone => "None"
  | vbool true => "True"
  | vbool false => "False"
  | vint n => toString n
  | vfloat lit => lit
  | vstr s => s
  | vrich s => s
  | vdate iso => iso
  | vimage _ t _ _ _ => t
  | vother r => r
  | vlist _ => "<list>"
  | vlistv _ => "<ListValue>"
  | vstruct _ => "<StructValue>"
  | vdict _ => "<dict>"
  | vstream _ => "<StreamValue>"

/-- A live-database row for `wagtail.models.Page` restricted to the
attributes `page_by_slug` reads: the fixed attributes copied into `data`
(mysite/api.py, lines 194-205), with the two publication timestamps carried
as `Option String` (the `isoformat()` text of the stored datetime, `none`
for NULL), plus the remaining model fields as name/value pairs in
`page._meta.get_fields()` order (callable attributes are never emitted by
the walker and are not modelled). -/
structure PageRec where
  idv : Int
  title : String
  slug : String
  url_path : String
  seo_title : String
  search_description : String
  live : Bool
  has_unpublished_changes : Bool
  first_published_at : Option String
  last_published_at : Option String
  extra_fields : List (String × Value)

/-- A stored publication timestamp as the Python value placed in `data`:
the raw datetime object when set, `None` otherwise. -/
def published_at_value : Option String → Value
  | some iso => vdate iso
  | none => vnone

/-- The fixed part of the `data` dict built by `page_by_slug`
(mysite/api.py, lines 194-205), in insertion order. -/
def base_data (p : PageRec) : List (String × Value) :=
  [("id", vint p.idv), ("title", vstr p.title), ("slug", vstr p.slug),
   ("url_path", vstr p.url_path), ("seo_title", vstr p.seo_title),
   ("search_description", vstr p.search_description),
   ("live", vbool p.live),
   ("has_unpublished_changes", vbool p.has_unpublished_changes),
   ("first_published_at", published_at_value p.first_published_at),
   ("last_published_at", published_at_value p.last_published_at)]

/-- Embedding of the local helper `serialize_field_value` inside
`page_by_slug` (mysite/api.py, lines 208-236): StreamFields (the values with
a `stream_block` attribute) go through `StreamFieldSerializer
.to_representation`, RichText is stringified, images map to the five-key
dict, dates map to `isoformat()`, and every other value is returned
unchanged. -/
def serialize_field_value : Value → Value
  | vstream bs => to_representation bs
  | vrich s => vstr s
  | vimage i t u w h =>
      vdict [("id", vint i), ("title", vstr t), ("url", vstr u),
             ("width", vint w), ("height", vint h)]
  | vdate iso => vstr iso
  | v => v

/-- The coercion guard at lines 248-249 of mysite/api.py: keep the
serialized value if it passes the `isinstance` plain-JSON check, otherwise
replace it with `str(serialized_value)`. -/
def coerce_serialized (w : Value) : Value :=
  if is_plain w then w else vstr (pyStr w)

/-- True iff the dict already has an entry for `name`
(the Python test `field_name not in data`). -/
def has_key (data : List (String × Value)) (name : String) : Bool :=
  data.any (fun kv => kv.1 == name)

/-- The Python test `field_name.startswith('_')`: the first character of the
name is an underscore (modelled on the character list since only the
one-character prefix is ever asked for). -/
def name_is_private (name : String) : Bool :=
  match name.data with
  | [] => false
  | c :: _ => c == Char.ofNat 95

/-- The Python test `field_value is None`. -/
def is_vnone : Value → Bool
  | vnone => true
  | _ => false

/-- The field loop of `page_by_slug` (mysite/api.py, lines 239-252): walk the
model fields in order, skip names already present in `data`, private names,
`page_ptr`, `content_type` and `None` values, and insert the serialized,
coerced value for the rest (dict insertion appends at the end). -/
def add_extras : List (String × Value) → List (String × Value) → List (String × Value)
  | data, [] => data
  | data, (name, v) :: rest =>
      if has_key data name || name_is_private name || name == "page_ptr" ||
          name == "content_type" || is_vnone v then
        add_extras data rest
      else
        add_extras (data ++ [(name, coerce_serialized (serialize_field_value v))]) rest

/-- Embedding of `Page.objects.filter(slug=slug).live().first()`
(mysite/api.py, line 182): the first row whose slug matches and which is
live. -/
def find_live_page (db : List PageRec) (s : String) : Option PageRec :=
  db.find? (fun p => p.slug == s && p.live)

/-- The full `data` dict returned for a found page. -/
def page_data (p : PageRec) : List (String × Value) :=
  add_extras (base_data p) p.extra_fields

/-- Embedding of the `page_by_slug` view (mysite/api.py, lines 166-260) as a
function from the database rows and the optional `slug` GET parameter to the
HTTP status code and the response body. `request.GET.get('slug')` yields
`none` when the parameter is absent, and `if not slug` is also true for the
empty string. Serialization in the embedding is total, so the
`except`/HTTP-500 arm of the source is never taken. -/
def page_by_slug (db : List PageRec) (slugParam : Option String) :
    Nat × List (String × Value) :=
  match slugParam with
  | none => (400, [("error", vstr "slug parameter is required")])
  | some s =>
      if s == "" then (400, [("error", vstr "slug parameter is required")])
      else
        match find_live_page db s with
        | none =>
            (404, [("error", vstr ("Page with slug \"" ++ s ++ "\" not found"))])
        | some p => (200, page_data p)

/-- A page as seen by the `link` properties: only its `url` attribute is
read (`self.link_page.url`). -/
structure PageRef where
  url : String

/-- Model of `navigation.models.NavigationMenu` restricted to the stored
fields its Python class declares (menu items live in a separate related
model). `link_page` is a nullable foreign key, so it is an `Option`;
`link_url` is a blank-able CharField, so an unset value is the empty
string. -/
structure NavigationMenu where
  title : String
  slug : String
  link_page : Option PageRef
  link_url : String
  display_order : Int

/-- Embedding of the `NavigationMenu.link` property (navigation/models.py,
lines 47-52): the linked page's url if `link_page` is set (a null foreign
key is falsy in Python), else `link_url`. -/
def NavigationMenu.link (m : NavigationMenu) : String :=
  match m.link_page with
  | some p => p.url
  | none => m.link_url

/-- Model of `navigation.models.MenuItem` restricted to its stored fields
(the `menu` parental key and the `sub_items` relation are not read by
`link`). -/
structure MenuItem where
  title : String
  link_page : Option PageRef
  link_url : String
  open_in_new_tab : Bool

/-- Embedding of the `MenuItem.link` property (navigation/models.py, lines
107-112). -/
def MenuItem.link (m : MenuItem) : String :=
  match m.link_page with
  | some p => p.url
  | none => m.link_url

/-- Model of `navigation.models.SubMenuItem` restricted to its stored
fields. -/
structure SubMenuItem where
  title : String
  link_page : Option PageRef
  link_url : String
  open_in_new_tab : Bool
  description : String

/-- Embedding of the `SubMenuItem.link` property (navigation/models.py,
lines 164-169). -/
def SubMenuItem.link (m : SubMenuItem) : String :=
  match m.link_page with
  | some p => p.url
  | none => m.link_url

/-- Model of `footer.models.FooterLink` restricted to its stored fields. -/
structure FooterLink where
  title : String
  link_page : Option PageRef
  link_url : String
  open_in_new_tab : Bool

/-- Embedding of the `FooterLink.link` property (footer/models.py, lines
223-228). -/
def FooterLink.link (m : FooterLink) : String :=
  match m.link_page with
  | some p => p.url
  | none => m.link_url

/-- Model of `faq.models.FAQItem` restricted to the fields its `save`
override reads and writes (`question` and `slug`) plus a representative
untouched field (`answer`); an unset SlugField is the empty string. -/
structure FAQItem where
  question : String
  answer : String
  slug : String

/-- Embedding of `FAQItem.save` (faq/models.py, lines 123-128) as its effect
on the row: when the slug is empty (falsy), fill it with
`slugify(self.question[:100])`; `slugify` is Django library code outside
this repository, so it is passed in as a parameter. The `super().save`
persistence call has no effect on the field values. -/
def FAQItem.save (slugify : String → String) (it : FAQItem) : FAQItem :=
  if it.slug == "" then { it with slug := slugify (it.question.take 100) } else it

/-- Model of `taxonomy.models.Category` restricted to `name`, `slug` and a
representative untouched field (`description`). -/
structure Category where
  name : String
  description : String
  slug : String

/-- Embedding of `Category.save` (taxonomy/models.py, lines 112-115): fill
an empty slug with `slugify(self.name)`. -/
def Category.save (slugify : String → String) (it : Category) : Category :=
  if it.slug == "" then { it with slug := slugify it.name } else it

/-- Model of `taxonomy.models.Tag` restricted to `name`, `slug` and a
representative untouched field (`use_count`). -/
structure Tag where
  name : String
  use_count : Int
  slug : String

/-- Embedding of `Tag.save` (taxonomy/models.py, lines 201-204): fill an
empty slug with `slugify(self.name)`. -/
def Tag.save (slugify : String → String) (it : Tag) : Tag :=
  if it.slug == "" then { it with slug := slugify it.name } else it

/-- Model of `taxonomy.models.Badge` restricted to `name`, `slug` and a
representative untouched field (`badge_type`). -/
structure Badge where
  name : String
  badge_type : String
  slug : String

/-- Embedding of `Badge.save` (taxonomy/models.py, lines 345-348): fill an
empty slug with `slugify(self.name)`. -/
def Badge.save (slugify : String → String) (it : Badge) : Badge :=
  if it.slug == "" then { it with slug := slugify it.name } else it

mutual

/-- Size of a content tree: every constructor counts, so sizes are positive
and strictly decrease into list elements, struct field values and nested
stream blocks. -/
def vsize : Value → Nat
  | vnone => 1
  | vbool _ => 1
  | vint _ => 1
  | vfloat _ => 1
  | vstr _ => 1
  | vrich _ => 1
  | vimage _ _ _ _ _ => 1
  | vdate _ => 1
  | vlist xs => vsize_list xs + 1
  | vlistv xs => vsize_list xs + 1
  | vstruct fs => vsize_fields fs + 1
  | vdict fs => vsize_fields fs + 1
  | vstream bs => vsize_blocks bs + 1
  | vother _ => 1

/-- Size of a list of content trees. -/
def vsize_list : List Value → Nat
  | [] => 1
  | x :: xs => vsize x + vsize_list xs + 1

/-- Size of a struct field list. -/
def vsize_fields : List (String × Value) → Nat
  | [] => 1
  | (_, v) :: fs => vsize v + vsize_fields fs + 1

/-- Size of a bound-block list. -/
def vsize_blocks : List SBlock → Nat
  | [] => 1
  | (_, v, _) :: bs => vsize v + vsize_blocks bs + 1

end

mutual

/-- Step-counting version of `_serialize_value`: each recursive call burns
one unit of fuel and the function answers `none` when the fuel runs out.
It performs exactly the recursion of `serialize_value`, so adequacy of some
finite fuel for every input is the termination statement for the mutual
recursion of the source serializer. -/
def serialize_value_fuel : Nat → Value → Option Value
  | 0, _ => none
  | _ + 1, vnone => some vnone
  | _ + 1, vbool b => some (vbool b)
  | _ + 1, vint n => some (vint n)
  | _ + 1, vfloat lit => some (vfloat lit)
  | _ + 1, vstr s => some (vstr s)
  | n + 1, vlistv xs => (serialize_value_list_fuel n xs).map vlist
  | n + 1, vstruct fs => (serialize_struct_fields_fuel n fs).map vdict
  | n + 1, vdict fs => (serialize_struct_fields_fuel n fs).map vdict
  | n + 1, vstream bs => (to_repr_list_fuel n bs).map vlist
  | n + 1, vlist xs => (serialize_value_list_fuel n xs).map vlist
  | _ + 1, vrich s => some (vstr s)
  | _ + 1, vimage i t u w h =>
      some (vdict [("id", vint i), ("title", vstr t), ("url", vstr u),
                   ("width", vint w), ("height", vint h)])
  | _ + 1, vdate iso => some (vstr iso)
  | _ + 1, vother r => some (vstr r)

/-- Step-counting version of `serialize_value_list`. -/
def serialize_value_list_fuel : Nat → List Value → Option (List Value)
  | 0, _ => none
  | _ + 1, [] => some []
  | n + 1, x :: xs =>
      match serialize_value_fuel n x, serialize_value_list_fuel n xs with
      | some y, some ys => some (y :: ys)
      | _, _ => none

/-- Step-counting version of `serialize_struct_fields`. -/
def serialize_struct_fields_fuel :
    Nat → List (String × Value) → Option (List (String × Value))
  | 0, _ => none
  | _ + 1, [] => some []
  | n + 1, (k, v) :: fs =>
      match serialize_value_fuel n v, serialize_struct_fields_fuel n fs with
      | some y, some ys => some ((k, y) :: ys)
      | _, _ => none

/-- Step-counting version of `_serialize_block_value`. -/
def serialize_block_value_fuel : Nat → Value → Option Value
  | 0, _ => none
  | n + 1, vstruct fs => (serialize_struct_fields_fuel n fs).map vdict
  | n + 1, vdict fs => (serialize_struct_fields_fuel n fs).map vdict
  | _ + 1, vstr s => some (vstr s)
  | _ + 1, vint n => some (vint n)
  | _ + 1, vfloat lit => some (vfloat lit)
  | _ + 1, vbool b => some (vbool b)
  | _ + 1, vnone => some vnone
  | n + 1, vlist xs => (serialize_block_list_fuel n xs).map vlist
  | n + 1, vlistv xs => serialize_value_fuel n (vlistv xs)
  | n + 1, vstream bs => serialize_value_fuel n (vstream bs)
  | n + 1, vrich s => serialize_value_fuel n (vrich s)
  | n + 1, vimage i t u w h => serialize_value_fuel n (vimage i t u w h)
  | n + 1, vdate iso => serialize_value_fuel n (vdate iso)
  | n + 1, vother r => serialize_value_fuel n (vother r)

/-- Step-counting version of `serialize_block_list`. -/
def serialize_block_list_fuel : Nat → List Value → Option (List Value)
  | 0, _ => none
  | _ + 1, [] => some []
  | n + 1, x :: xs =>
      match serialize_block_value_fuel n x, serialize_block_list_fuel n xs with
      | some y, some ys => some (y :: ys)
      | _, _ => none

/-- Step-counting version of `to_repr_list`. -/
def to_repr_list_fuel : Nat → List SBlock → Option (List Value)
  | 0, _ => none
  | _ + 1, [] => some []
  | n + 1, (t, v, i) :: bs =>
      match serialize_block_value_fuel n v, to_repr_list_fuel n bs with
      | some y, some ys =>
          some (vdict [("type", vstr t), ("value", y),
                       ("id", block_id_repr i)] :: ys)
      | _, _ => none

end

/-- Sizes are positive. -/
theorem vsize_pos (v : Value) : 1 ≤ vsize v := by
  cases v <;> simp [vsize]

/-- List sizes are positive. -/
theorem vsize_list_pos (xs : List Value) : 1 ≤ vsize_list xs := by
  cases xs <;> simp [vsize_list]

/-- Field-list sizes are positive. -/
theorem vsize_fields_pos (fs : List (String × Value)) : 1 ≤ vsize_fields fs := by
  cases fs with
  | nil => simp [vsize_fields]
  | cons kv fs => obtain ⟨k, v⟩ := kv; simp [vsize_fields]

/-- Block-list sizes are positive. -/
theorem vsize_blocks_pos (bs : List SBlock) : 1 ≤ vsize_blocks bs := by
  cases bs with
  | nil => simp [vsize_blocks]
  | cons b bs => obtain ⟨t, v, i⟩ := b; simp [vsize_blocks]

/-- Any fuel of at least the size of the input is enough: each of the six
mutually recursive entry points of the step-counting serializer returns
`some` of the fuel-free answer (the `_serialize_block_value` entry points
need one extra unit because they delegate to `_serialize_value` on the same
value). -/
theorem fuel_adequate : ∀ n : Nat,
    (∀ v, vsize v ≤ n → serialize_value_fuel n v = some (serialize_value v)) ∧
    (∀ v, vsize v < n → serialize_block_value_fuel n v = some (serialize_block_value v)) ∧
    (∀ xs, vsize_list xs ≤ n →
      serialize_value_list_fuel n xs = some (serialize_value_list xs)) ∧
    (∀ xs, vsize_list xs < n →
      serialize_block_list_fuel n xs = some (serialize_block_list xs)) ∧
    (∀ fs, vsize_fields fs ≤ n →
      serialize_struct_fields_fuel n fs = some (serialize_struct_fields fs)) ∧
    (∀ bs, vsize_blocks bs ≤ n → to_repr_list_fuel n bs = some (to_repr_list bs)) := by
  intro n
  induction n with
  | zero =>
      refine ⟨fun v hv => absurd hv (by have := vsize_pos v; omega),
              fun v hv => absurd hv (by omega),
              fun xs hxs => absurd hxs (by have := vsize_list_pos xs; omega),
              fun xs hxs => absurd hxs (by omega),
              fun fs hfs => absurd hfs (by have := vsize_fields_pos fs; omega),
              fun bs hbs => absurd hbs (by have := vsize_blocks_pos bs; omega)⟩
  | succ n ih =>
      obtain ⟨ih1, ih2, ih3, ih4, ih5, ih6⟩ := ih
      have step1 : ∀ v, vsize v ≤ n + 1 →
          serialize_value_fuel (n + 1) v = some (serialize_value v) := by
        intro v hv
        cases v with
        | vnone => simp [serialize_value_fuel, serialize_value]
        | vbool b => simp [serialize_value_fuel, serialize_value]
        | vint m => simp [serialize_value_fuel, serialize_value]
        | vfloat lit => simp [serialize_value_fuel, serialize_value]
        | vstr s => simp [serialize_value_fuel, serialize_value]
        | vrich s => simp [serialize_value_fuel, serialize_value]
        | vimage i t u w h => simp [serialize_value_fuel, serialize_value]
        | vdate iso => simp [serialize_value_fuel, serialize_value]
        | vother r => simp [serialize_value_fuel, serialize_value]
        | vlist xs =>
            simp [vsize] at hv
            simp [serialize_value_fuel, serialize_value, ih3 xs (by omega)]
        | vlistv xs =>
            simp [vsize] at hv
            simp [serialize_value_fuel, serialize_value, ih3 xs (by omega)]
        | vstruct fs =>
            simp [vsize] at hv
            simp [serialize_value_fuel, serialize_value, ih5 fs (by omega)]
        | vdict fs =>
            simp [vsize] at hv
            simp [serialize_value_fuel, serialize_value, ih5 fs (by omega)]
        | vstream bs =>
            simp [vsize] at hv
            simp [serialize_value_fuel, serialize_value, ih6 bs (by omega)]
      have step2 : ∀ v, vsize v < n + 1 →
          serialize_block_value_fuel (n + 1) v = some (serialize_block_value v) := by
        intro v hv
        cases v with
        | vnone => simp [serialize_block_value_fuel, serialize_block_value]
        | vbool b => simp [serialize_block_value_fuel, serialize_block_value]
        | vint m => simp [serialize_block_value_fuel, serialize_block_value]
        | vfloat lit => simp [serialize_block_value_fuel, serialize_block_value]
        | vstr s => simp [serialize_block_value_fuel, serialize_block_value]
        | vrich s =>
            simp [vsize] at hv
            simp [serialize_block_value_fuel, serialize_block_value,
              ih1 (vrich s) (by simp [vsize]; omega)]
        | vimage i t u w h =>
            simp [vsize] at hv
            simp [serialize_block_value_fuel, serialize_block_value,
              ih1 (vimage i t u w h) (by simp [vsize]; omega)]
        | vdate iso =>
            simp [vsize] at hv
            simp [serialize_block_value_fuel, serialize_block_value,
              ih1 (vdate iso) (by simp [vsize]; omega)]
        | vother r =>
            simp [vsize] at hv
            simp [serialize_block_value_fuel, serialize_block_value,
              ih1 (vother r) (by simp [vsize]; omega)]
        | vlist xs =>
            simp [vsize] at hv
            simp [serialize_block_value_fuel, serialize_block_value,
              ih4 xs (by omega)]
        | vlistv xs =>
            simp [vsize] at hv
            exact (by
              simp [serialize_block_value_fuel, serialize_block_value,
                ih1 (vlistv xs) (by simp [vsize]; omega)])
        | vstruct fs =>
            simp [vsize] at hv
            simp [serialize_block_value_fuel, serialize_block_value,
              ih5 fs (by omega)]
        | vdict fs =>
            simp [vsize] at hv
            simp [serialize_block_value_fuel, serialize_block_value,
              ih5 fs (by omega)]
        | vstream bs =>
            simp [vsize] at hv
            exact (by
              simp [serialize_block_value_fuel, serialize_block_value,
                ih1 (vstream bs) (by simp [vsize]; omega)])
      have step3 : ∀ xs, vsize_list xs ≤ n + 1 →
          serialize_value_list_fuel (n + 1) xs = some (serialize_value_list xs) := by
        intro xs hxs
        cases xs with
        | nil => simp [serialize_value_list_fuel, serialize_value_list]
        | cons x xs =>
            simp [vsize_list] at hxs
            have h1 := vsize_list_pos xs
            simp [serialize_value_list_fuel, serialize_value_list,
              ih1 x (by omega), ih3 xs (by omega)]
      have step4 : ∀ xs, vsize_list xs < n + 1 →
          serialize_block_list_fuel (n + 1) xs = some (serialize_block_list xs) := by
        intro xs hxs
        cases xs with
        | nil => simp [serialize_block_list_fuel, serialize_block_list]
        | cons x xs =>
            simp [vsize_list] at hxs
            have h1 := vsize_list_pos xs
            simp [serialize_block_list_fuel, serialize_block_list,
              ih2 x (by omega), ih4 xs (by omega)]
      have step5 : ∀ fs, vsize_fields fs ≤ n + 1 →
          serialize_struct_fields_fuel (n + 1) fs =
            some (serialize_struct_fields fs) := by
        intro fs hfs
        cases fs with
        | nil => simp [serialize_struct_fields_fuel, serialize_struct_fields]
        | cons kv fs =>
            obtain ⟨k, v⟩ := kv
            simp [vsize_fields] at hfs
            have h1 := vsize_fields_pos fs
            simp [serialize_struct_fields_fuel, serialize_struct_fields,
              ih1 v (by omega), ih5 fs (by omega)]
      have step6 : ∀ bs, vsize_blocks bs ≤ n + 1 →
          to_repr_list_fuel (n + 1) bs = some (to_repr_list bs) := by
        intro bs hbs
        cases bs with
        | nil => simp [to_repr_list_fuel, to_repr_list]
        | cons b bs =>
            obtain ⟨t, v, i⟩ := b
            simp [vsize_blocks] at hbs
            have h1 := vsize_blocks_pos bs
            simp [to_repr_list_fuel, to_repr_list,
              ih2 v (by omega), ih6 bs (by omega)]
      exact ⟨step1, step2, step3, step4, step5, step6⟩

/-- The coercion guard always yields a value passing the `isinstance`
plain-JSON check. -/
theorem coerce_serialized_plain (w : Value) :
    is_plain (coerce_serialized w) = true := by
  unfold coerce_serialized
  split
  · assumption
  · simp [is_plain]

/-- Every entry of the fixed part of `data` other than the two publication
timestamps passes the plain-JSON check. -/
theorem base_data_plain (p : PageRec) :
    ∀ kv ∈ base_data p,
      kv.1 = "first_published_at" ∨ kv.1 = "last_published_at" ∨
        is_plain kv.2 = true := by
  intro kv hkv
  simp only [base_data, List.mem_cons, List.not_mem_nil, or_false] at hkv
  rcases hkv with h|h|h|h|h|h|h|h|h|h <;> subst h <;> simp [is_plain]

/-- The field loop preserves the except-timestamps plain-JSON property of
`data`: it only appends coerced (hence plain) values. -/
theorem add_extras_plain (extra : List (String × Value)) :
    ∀ data : List (String × Value),
      (∀ kv ∈ data,
        kv.1 = "first_published_at" ∨ kv.1 = "last_published_at" ∨
          is_plain kv.2 = true) →
      ∀ kv ∈ add_extras data extra,
        kv.1 = "first_published_at" ∨ kv.1 = "last_published_at" ∨
          is_plain kv.2 = true := by
  induction extra with
  | nil => intro data h; simpa [add_extras] using h
  | cons e rest ih =>
      obtain ⟨name, v⟩ := e
      intro data h
      rw [add_extras]
      split
      · exact ih data h
      · apply ih
        intro kv hkv
        rcases List.mem_append.mp hkv with hmem | hmem
        · exact h kv hmem
        · simp only [List.mem_singleton] at hmem
          subst hmem
          exact Or.inr (Or.inr (coerce_serialized_plain _))

/-- Every entry of the full `data` dict for a found page, other than the two
publication timestamps, passes the plain-JSON check. -/
theorem page_data_plain (p : PageRec) :
    ∀ kv ∈ page_data p,
      kv.1 = "first_published_at" ∨ kv.1 = "last_published_at" ∨
        is_plain kv.2 = true := by
  exact add_extras_plain p.extra_fields (base_data p) (base_data_plain p)

/-- C1: for every StreamField value built from the known variants,
`StreamFieldSerializer.to_representation` returns generic JSON: a list with
one entry per block, each entry a dict with exactly the keys `type`, `value`
and `id`, whose `value` component is generic JSON (only None, bool, int,
float, str, lists and string-keyed dicts) and whose `id` component is a
string or None. -/
theorem to_representation_generic_json (bs : List SBlock)
    (hk : known_blocks bs = true) :
    ∃ l, to_representation bs = vlist l ∧ l.length = bs.length ∧
      ∀ e ∈ l, ∃ t w i,
        e = vdict [("type", vstr t), ("value", w), ("id", i)] ∧
        isJSON w = true ∧ (i = vnone ∨ ∃ s, i = vstr s) := by
  refine ⟨to_repr_list bs, rfl, ?_, ?_⟩
  · rw [to_repr_list_eq_map, List.length_map]
  · intro e he
    rw [to_repr_list_eq_map] at he
    simp only [List.mem_map] at he
    obtain ⟨b, hb, rfl⟩ := he
    refine ⟨b.1, serialize_block_value b.2.1, block_id_repr b.2.2, rfl,
      serialize_block_value_returns_json b.2.1, ?_⟩
    cases b.2.2 <;> simp [block_id_repr]

/-- Witness for C1 at a one-block stream. -/
theorem to_representation_generic_json_witness :
    ∃ l,
      to_representation [("heading", vstr "Hello", some "b1")] = vlist l ∧
      l.length = [(("heading" : String), vstr "Hello", some "b1")].length ∧
      ∀ e ∈ l, ∃ t w i,
        e = vdict [("type", vstr t), ("value", w), ("id", i)] ∧
        isJSON w = true ∧ (i = vnone ∨ ∃ s, i = vstr s) :=
  to_representation_generic_json [("heading", vstr "Hello", some "b1")]
    (by simp [known_blocks, known_value])

/-- C3: on the shared leaf variants the `page_by_slug` field walker and
`StreamFieldSerializer._serialize_value` agree (string form for rich text,
the five-key dict for images, the isoformat string for dates), and on every
StreamField value the walker returns exactly
`StreamFieldSerializer.to_representation`. -/
theorem walker_agrees_with_serializer (s iso t u : String) (i w h : Int)
    (bs : List SBlock) :
    serialize_field_value (vrich s) = serialize_value (vrich s) ∧
    serialize_field_value (vimage i t u w h) = serialize_value (vimage i t u w h) ∧
    serialize_field_value (vdate iso) = serialize_value (vdate iso) ∧
    serialize_field_value (vrich s) = vstr s ∧
    serialize_field_value (vimage i t u w h) =
      vdict [("id", vint i), ("title", vstr t), ("url", vstr u),
             ("width", vint w), ("height", vint h)] ∧
    serialize_field_value (vdate iso) = vstr iso ∧
    serialize_field_value (vstream bs) = to_representation bs := by
  refine ⟨?_, ?_, ?_, ?_, ?_, ?_, ?_⟩ <;>
    simp [serialize_field_value, serialize_value, to_representation]

/-- C4: the serializer is a structure-preserving tree walk: list and
list-block values map to the list of serialized elements in order (same
length), struct values map to the dict with exactly the struct keys and
serialized values, and a nested stream value serializes to the same
`{type, value, id}` list form as the top level. -/
theorem serializer_structure_preserving (xs : List Value)
    (fs : List (String × Value)) (bs : List SBlock) :
    serialize_value (vlistv xs) = vlist (xs.map serialize_value) ∧
    serialize_value (vlist xs) = vlist (xs.map serialize_value) ∧
    serialize_block_value (vlist xs) = vlist (xs.map serialize_block_value) ∧
    (xs.map serialize_value).length = xs.length ∧
    serialize_value (vstruct fs) =
      vdict (fs.map fun kv => (kv.1, serialize_value kv.2)) ∧
    (fs.map fun kv => (kv.1, serialize_value kv.2)).map Prod.fst =
      fs.map Prod.fst ∧
    serialize_value (vstream bs) = to_representation bs := by
  refine ⟨?_, ?_, ?_, ?_, ?_, ?_, ?_⟩
  · simp [serialize_value, serialize_value_list_eq_map]
  · simp [serialize_value, serialize_value_list_eq_map]
  · simp [serialize_block_value, serialize_block_list_eq_map]
  · simp
  · simp [serialize_value, serialize_struct_fields_eq_map]
  · simp
  · simp [serialize_value, to_representation]

/-- C5: the leaf variants convert as stated: rich text to its string form,
images to the dict with exactly the keys id, title, url, width, height,
dates to their ISO-8601 string, and basic scalars to themselves. -/
theorem serializer_leaf_conversions (s iso lit : String) (t u : String)
    (i w h n : Int) (b : Bool) :
    serialize_value (vrich s) = vstr s ∧
    serialize_value (vimage i t u w h) =
      vdict [("id", vint i), ("title", vstr t), ("url", vstr u),
             ("width", vint w), ("height", vint h)] ∧
    serialize_value (vdate iso) = vstr iso ∧
    serialize_value (vstr s) = vstr s ∧
    serialize_value (vint n) = vint n ∧
    serialize_value (vfloat lit) = vfloat lit ∧
    serialize_value (vbool b) = vbool b ∧
    serialize_value vnone = vnone := by
  refine ⟨?_, ?_, ?_, ?_, ?_, ?_, ?_, ?_⟩ <;> simp [serialize_value]

/-- C6: under the precondition that the content tree is built only from the
known variants, the fall-through `str(value)` branch of `_serialize_value`
is unreachable, whether serialization enters through `_serialize_value`,
`_serialize_block_value` or `to_representation`. -/
theorem no_fallback_on_known_variants (v : Value) (bs : List SBlock)
    (hv : known_value v = true) (hbs : known_blocks bs = true) :
    fallback_value v = false ∧ fallback_block_value v = false ∧
      fallback_blocks bs = false :=
  ⟨known_no_fallback_value v hv, known_no_fallback_block_value v hv,
   known_no_fallback_blocks bs hbs⟩

/-- Witness for C6 at a struct containing rich text, a date and a nested
list, inside a one-block stream. -/
theorem no_fallback_on_known_variants_witness :
    fallback_value
        (vstruct [("body", vrich "<p>x</p>"), ("when", vdate "2024-01-02"),
                  ("tags", vlistv [vstr "a", vstr "b"])]) = false ∧
    fallback_block_value
        (vstruct [("body", vrich "<p>x</p>"), ("when", vdate "2024-01-02"),
                  ("tags", vlistv [vstr "a", vstr "b"])]) = false ∧
    fallback_blocks
        [("card", vstruct [("body", vrich "<p>x</p>")], some "id0")] = false :=
  no_fallback_on_known_variants
    (vstruct [("body", vrich "<p>x</p>"), ("when", vdate "2024-01-02"),
              ("tags", vlistv [vstr "a", vstr "b"])])
    [("card", vstruct [("body", vrich "<p>x</p>")], some "id0")]
    (by simp [known_value, known_fields, known_list])
    (by simp [known_blocks, known_value, known_fields])

/-- C7: the mutual recursion of the block-value serializer terminates on
every finite content tree: for each input there is a finite step budget
under which the step-counting serializer returns (with `some`) exactly the
fuel-free answer, for each of the four entry points of the source class. -/
theorem serializer_terminates (v : Value) (fs : List (String × Value))
    (bs : List SBlock) :
    ∃ n : Nat,
      serialize_value_fuel n v = some (serialize_value v) ∧
      serialize_block_value_fuel n v = some (serialize_block_value v) ∧
      serialize_struct_fields_fuel n fs = some (serialize_struct_fields fs) ∧
      (to_repr_list_fuel n bs).map vlist = some (to_representation bs) := by
  refine ⟨vsize v + vsize_fields fs + vsize_blocks bs + 1, ?_, ?_, ?_, ?_⟩
  · exact (fuel_adequate _).1 v
      (by have := vsize_fields_pos fs; have := vsize_blocks_pos bs; omega)
  · exact (fuel_adequate _).2.1 v
      (by have := vsize_fields_pos fs; have := vsize_blocks_pos bs; omega)
  · exact (fuel_adequate _).2.2.2.2.1 fs
      (by have := vsize_pos v; have := vsize_blocks_pos bs; omega)
  · rw [(fuel_adequate _).2.2.2.2.2 bs
      (by have := vsize_pos v; have := vsize_fields_pos fs; omega)]
    rfl

/-- A concrete live page used to evaluate the endpoint: both publication
timestamps are set and there is one rich-text extra field. -/
def sample_page : PageRec :=
  { idv := 3, title := "Home", slug := "home", url_path := "/home/",
    seo_title := "Home page", search_description := "The home page",
    live := true, has_unpublished_changes := false,
    first_published_at := some "2024-01-01T00:00:00+00:00",
    last_published_at := some "2024-02-01T00:00:00+00:00",
    extra_fields := [("intro", vrich "<p>Hi</p>")] }

/-- Counterexample to C2: for a live page found by slug whose
`first_published_at` is set, the returned response dict is NOT made only of
plain JSON values - the entries `first_published_at` and
`last_published_at` hold the raw datetime objects, which fail the code's
own `isinstance` plain-JSON check and are not ISO strings. -/
theorem page_by_slug_not_all_plain :
    (page_by_slug [sample_page] (some "home")).1 = 200 ∧
    ((page_by_slug [sample_page] (some "home")).2.all
        fun kv => is_plain kv.2) = false := by
  constructor
  · rfl
  · rfl

/-- C2 as amended: for every request, every value in the returned response
dict passes the plain-JSON check except the entries `first_published_at`
and `last_published_at`, which are returned as the raw datetime objects
(or None). -/
theorem page_by_slug_values_plain_except_timestamps
    (db : List PageRec) (slugParam : Option String) :
    ∀ kv ∈ (page_by_slug db slugParam).2,
      kv.1 = "first_published_at" ∨ kv.1 = "last_published_at" ∨
        is_plain kv.2 = true := by
  intro kv hkv
  cases slugParam with
  | none =>
      simp only [page_by_slug, List.mem_singleton] at hkv
      subst hkv
      simp [is_plain]
  | some s =>
      by_cases hs : s = ""
      · subst hs
        simp only [page_by_slug, beq_self_eq_true, if_true,
          List.mem_singleton] at hkv
        subst hkv
        simp [is_plain]
      · cases hfind : find_live_page db s with
        | none =>
            simp only [page_by_slug, beq_iff_eq, hs, if_false, hfind,
              List.mem_singleton] at hkv
            subst hkv
            simp [is_plain]
        | some p =>
            simp only [page_by_slug, beq_iff_eq, hs, if_false, hfind] at hkv
            exact page_data_plain p kv hkv

/-- Witness for the amended C2 at the sample page: instantiates the theorem
at a found live page and specializes it to the first entry of the body. -/
theorem page_by_slug_values_plain_except_timestamps_witness :
    ("id", vint 3) ∈ (page_by_slug [sample_page] (some "home")).2 ∧
    (("id", vint 3).1 = "first_published_at" ∨
     ("id", vint 3).1 = "last_published_at" ∨
     is_plain ("id", vint 3).2 = true) :=
  ⟨by rw [show (page_by_slug [sample_page] (some "home")).2 =
        page_data sample_page from rfl]
      exact List.mem_of_mem_head? rfl,
   page_by_slug_values_plain_except_timestamps [sample_page] (some "home")
     ("id", vint 3)
     (by rw [show (page_by_slug [sample_page] (some "home")).2 =
          page_data sample_page from rfl]
         exact List.mem_of_mem_head? rfl)⟩

/-- C8: the endpoint answers 400 with the fixed error body exactly when the
slug parameter is absent or empty, answers 404 with an error body exactly
when the slug is present and non-empty but no live page with that slug
exists, and answers 200 with the page data when a live page is found (the
HTTP-500 arm of the source guards serialization exceptions, which cannot
arise in the embedding because serialization is total). -/
theorem page_by_slug_status (db : List PageRec) (slugParam : Option String) :
    ((page_by_slug db slugParam).1 = 400 ↔
      (slugParam = none ∨ slugParam = some "")) ∧
    ((page_by_slug db slugParam).1 = 400 →
      (page_by_slug db slugParam).2 =
        [("error", vstr "slug parameter is required")]) ∧
    ((page_by_slug db slugParam).1 = 404 ↔
      (∃ s, slugParam = some s ∧ s ≠ "" ∧ find_live_page db s = none)) ∧
    ((page_by_slug db slugParam).1 = 404 →
      ∃ s, slugParam = some s ∧
        (page_by_slug db slugParam).2 =
          [("error", vstr ("Page with slug \"" ++ s ++ "\" not found"))]) ∧
    (∀ s p, slugParam = some s → s ≠ "" → find_live_page db s = some p →
      page_by_slug db slugParam = (200, page_data p)) := by
  cases slugParam with
  | none => simp [page_by_slug]
  | some s =>
      by_cases hs : s = ""
      · subst hs
        simp [page_by_slug]
        intro s2 p h1 h2
        exact absurd h1.symm h2
      · cases hfind : find_live_page db s with
        | none =>
            simp [page_by_slug, hs, hfind]
            intro s1 p h1 h2 hf
            rw [h1] at hfind
            rw [hfind] at hf
            exact Option.noConfusion hf
        | some p =>
            simp [page_by_slug, hs, hfind]
            intro s1 p1 h1 h2 hf
            rw [h1] at hfind
            rw [hfind] at hf
            injection hf with h3
            rw [h3]

/-- Witness for C8: the sample database answers 200 for the live page,
404 for an unknown slug and 400 for an empty slug. -/
theorem page_by_slug_status_witness :
    page_by_slug [sample_page] (some "home") = (200, page_data sample_page) ∧
    (page_by_slug [sample_page] (some "nope")).1 = 404 ∧
    (page_by_slug [sample_page] (some "")).1 = 400 := by
  refine ⟨?_, ?_, ?_⟩
  · exact (page_by_slug_status [sample_page] (some "home")).2.2.2.2
      "home" sample_page rfl (by simp) rfl
  · exact ((page_by_slug_status [sample_page] (some "nope")).2.2.1).mpr
      ⟨"nope", rfl, by simp, rfl⟩
  · exact ((page_by_slug_status [sample_page] (some "")).1).mpr (Or.inr rfl)

/-- C9: for NavigationMenu, MenuItem, SubMenuItem and FooterLink instances,
the `link` property returns the linked page's URL when `link_page` is set
and `link_url` otherwise (so an instance with neither set yields the
empty-string `link_url`). -/
theorem link_property_prefers_page (m1 : NavigationMenu) (m2 : MenuItem)
    (m3 : SubMenuItem) (m4 : FooterLink) :
    (∀ p, m1.link_page = some p → m1.link = p.url) ∧
    (m1.link_page = none → m1.link = m1.link_url) ∧
    (∀ p, m2.link_page = some p → m2.link = p.url) ∧
    (m2.link_page = none → m2.link = m2.link_url) ∧
    (∀ p, m3.link_page = some p → m3.link = p.url) ∧
    (m3.link_page = none → m3.link = m3.link_url) ∧
    (∀ p, m4.link_page = some p → m4.link = p.url) ∧
    (m4.link_page = none → m4.link = m4.link_url) := by
  refine ⟨fun p h => ?_, fun h => ?_, fun p h => ?_, fun h => ?_,
          fun p h => ?_, fun h => ?_, fun p h => ?_, fun h => ?_⟩ <;>
    simp [NavigationMenu.link, MenuItem.link, SubMenuItem.link,
      FooterLink.link, h]

/-- Witness for C9: each of the four classes, once with a linked page and
once with neither link set (yielding the empty string). -/
theorem link_property_prefers_page_witness :
    (NavigationMenu.mk "Main" "main" (some ⟨"/about/"⟩) "/alt" 0).link
      = "/about/" ∧
    (NavigationMenu.mk "Main" "main" none "" 0).link = "" ∧
    (MenuItem.mk "Item" (some ⟨"/team/"⟩) "/alt" false).link = "/team/" ∧
    (MenuItem.mk "Item" none "" false).link = "" ∧
    (SubMenuItem.mk "Sub" (some ⟨"/faq/"⟩) "/alt" false "d").link = "/faq/" ∧
    (SubMenuItem.mk "Sub" none "" false "d").link = "" ∧
    (FooterLink.mk "Foot" (some ⟨"/contact/"⟩) "/alt" false).link
      = "/contact/" ∧
    (FooterLink.mk "Foot" none "" false).link = "" := by
  refine ⟨?_, ?_, ?_, ?_, ?_, ?_, ?_, ?_⟩
  · exact (link_property_prefers_page
      (NavigationMenu.mk "Main" "main" (some ⟨"/about/"⟩) "/alt" 0)
      (MenuItem.mk "Item" none "" false)
      (SubMenuItem.mk "Sub" none "" false "d")
      (FooterLink.mk "Foot" none "" false)).1 ⟨"/about/"⟩ rfl
  · exact (link_property_prefers_page
      (NavigationMenu.mk "Main" "main" none "" 0)
      (MenuItem.mk "Item" none "" false)
      (SubMenuItem.mk "Sub" none "" false "d")
      (FooterLink.mk "Foot" none "" false)).2.1 rfl
  · exact (link_property_prefers_page
      (NavigationMenu.mk "Main" "main" none "" 0)
      (MenuItem.mk "Item" (some ⟨"/team/"⟩) "/alt" false)
      (SubMenuItem.mk "Sub" none "" false "d")
      (FooterLink.mk "Foot" none "" false)).2.2.1 ⟨"/team/"⟩ rfl
  · exact (link_property_prefers_page
      (NavigationMenu.mk "Main" "main" none "" 0)
      (MenuItem.mk "Item" none "" false)
      (SubMenuItem.mk "Sub" none "" false "d")
      (FooterLink.mk "Foot" none "" false)).2.2.2.1 rfl
  · exact (link_property_prefers_page
      (NavigationMenu.mk "Main" "main" none "" 0)
      (MenuItem.mk "Item" none "" false)
      (SubMenuItem.mk "Sub" (some ⟨"/faq/"⟩) "/alt" false "d")
      (FooterLink.mk "Foot" none "" false)).2.2.2.2.1 ⟨"/faq/"⟩ rfl
  · exact (link_property_prefers_page
      (NavigationMenu.mk "Main" "main" none "" 0)
      (MenuItem.mk "Item" none "" false)
      (SubMenuItem.mk "Sub" none "" false "d")
      (FooterLink.mk "Foot" none "" false)).2.2.2.2.2.1 rfl
  · exact (link_property_prefers_page
      (NavigationMenu.mk "Main" "main" none "" 0)
      (MenuItem.mk "Item" none "" false)
      (SubMenuItem.mk "Sub" none "" false "d")
      (FooterLink.mk "Foot" (some ⟨"/contact/"⟩) "/alt" false)).2.2.2.2.2.2.1
      ⟨"/contact/"⟩ rfl
  · exact (link_property_prefers_page
      (NavigationMenu.mk "Main" "main" none "" 0)
      (MenuItem.mk "Item" none "" false)
      (SubMenuItem.mk "Sub" none "" false "d")
      (FooterLink.mk "Foot" none "" false)).2.2.2.2.2.2.2 rfl

/-- C10: saving preserves a non-empty slug unchanged (the whole row is
returned as provided) and fills an empty slug deterministically: FAQItem
from `slugify` of the first 100 characters of the question, Category, Tag
and Badge from `slugify` of the name; `slugify` is Django library code and
is passed as a parameter. -/
theorem save_fills_empty_slug_only (slugify : String → String)
    (f : FAQItem) (c : Category) (t : Tag) (b : Badge) :
    (f.slug ≠ "" → FAQItem.save slugify f = f) ∧
    (f.slug = "" → FAQItem.save slugify f =
      { f with slug := slugify (f.question.take 100) }) ∧
    (c.slug ≠ "" → Category.save slugify c = c) ∧
    (c.slug = "" → Category.save slugify c = { c with slug := slugify c.name }) ∧
    (t.slug ≠ "" → Tag.save slugify t = t) ∧
    (t.slug = "" → Tag.save slugify t = { t with slug := slugify t.name }) ∧
    (b.slug ≠ "" → Badge.save slugify b = b) ∧
    (b.slug = "" → Badge.save slugify b = { b with slug := slugify b.name }) := by
  refine ⟨fun h => ?_, fun h => ?_, fun h => ?_, fun h => ?_,
          fun h => ?_, fun h => ?_, fun h => ?_, fun h => ?_⟩ <;>
    simp [FAQItem.save, Category.save, Tag.save, Badge.save, h]

/-- Witness for C10: a pre-set slug survives each save unchanged, and an
empty slug is filled from the question or name. -/
theorem save_fills_empty_slug_only_witness :
    FAQItem.save (fun _ => "gen") ⟨"Why", "Because", "keep"⟩
      = ⟨"Why", "Because", "keep"⟩ ∧
    FAQItem.save (fun _ => "gen") ⟨"Why", "Because", ""⟩
      = ⟨"Why", "Because", "gen"⟩ ∧
    Category.save (fun _ => "gen") ⟨"News", "d", "keep"⟩
      = ⟨"News", "d", "keep"⟩ ∧
    Category.save (fun _ => "gen") ⟨"News", "d", ""⟩ = ⟨"News", "d", "gen"⟩ ∧
    Tag.save (fun _ => "gen") ⟨"Hot", 4, "keep"⟩ = ⟨"Hot", 4, "keep"⟩ ∧
    Tag.save (fun _ => "gen") ⟨"Hot", 4, ""⟩ = ⟨"Hot", 4, "gen"⟩ ∧
    Badge.save (fun _ => "gen") ⟨"New", "info", "keep"⟩
      = ⟨"New", "info", "keep"⟩ ∧
    Badge.save (fun _ => "gen") ⟨"New", "info", ""⟩ = ⟨"New", "info", "gen"⟩ := by
  refine ⟨?_, ?_, ?_, ?_, ?_, ?_, ?_, ?_⟩
  · exact (save_fills_empty_slug_only (fun _ => "gen")
      ⟨"Why", "Because", "keep"⟩ ⟨"News", "d", ""⟩ ⟨"Hot", 4, ""⟩
      ⟨"New", "info", ""⟩).1 (by decide)
  · exact (save_fills_empty_slug_only (fun _ => "gen")
      ⟨"Why", "Because", ""⟩ ⟨"News", "d", ""⟩ ⟨"Hot", 4, ""⟩
      ⟨"New", "info", ""⟩).2.1 rfl
  · exact (save_fills_empty_slug_only (fun _ => "gen")
      ⟨"Why", "Because", ""⟩ ⟨"News", "d", "keep"⟩ ⟨"Hot", 4, ""⟩
      ⟨"New", "info", ""⟩).2.2.1 (by decide)
  · exact (save_fills_empty_slug_only (fun _ => "gen")
      ⟨"Why", "Because", ""⟩ ⟨"News", "d", ""⟩ ⟨"Hot", 4, ""⟩
      ⟨"New", "info", ""⟩).2.2.2.1 rfl
  · exact (save_fills_empty_slug_only (fun _ => "gen")
      ⟨"Why", "Because", ""⟩ ⟨"News", "d", ""⟩ ⟨"Hot", 4, "keep"⟩
      ⟨"New", "info", ""⟩).2.2.2.2.1 (by decide)
  · exact (save_fills_empty_slug_only (fun _ => "gen")
      ⟨"Why", "Because", ""⟩ ⟨"News", "d", ""⟩ ⟨"Hot", 4, ""⟩
      ⟨"New", "info", ""⟩).2.2.2.2.2.1 rfl
  · exact (save_fills_empty_slug_only (fun _ => "gen")
      ⟨"Why", "Because", ""⟩ ⟨"News", "d", ""⟩ ⟨"Hot", 4, ""⟩
      ⟨"New", "info", "keep"⟩).2.2.2.2.2.2.1 (by decide)
  · exact (save_fills_empty_slug_only (fun _ => "gen")
      ⟨"Why", "Because", ""⟩ ⟨"News", "d", ""⟩ ⟨"Hot", 4, ""⟩
      ⟨"New", "info", ""⟩).2.2.2.2.2.2.2 rfl
